import Mathlib

/-
Shallow embedding of src/RSSReader.py (a PyQt5 RSS reader).

The program has two classes: RssModel, a QAbstractTableModel over a Python
list of 4-element rows [title, website, summary, link], and RssFrame, the
application frame whose handlers fetch a feed, render a summary and navigate
the embedded browser.  Python exceptions (KeyError from dict lookup,
IndexError from list indexing) are modelled with Option / Except / an error
component; Python int list indexing (negative indices count from the back)
is modelled by pyGet.  The external collaborator feedparser.parse is
modelled by passing the already-parsed Feed value to the fetch handler.
-/

set_option autoImplicit false
set_option linter.unusedVariables false

namespace RSSReader

/-- Python list indexing `xs[i]` with an `int` index: a nonnegative index
counts from the front, a negative index `i` with `-len ≤ i` denotes element
`len + i`, and any other index raises IndexError (modelled by `none`). -/
def pyGet {α : Type} (xs : List α) (i : Int) : Option α :=
  if 0 ≤ i then xs[i.toNat]?
  else if (-i).toNat ≤ xs.length then xs[xs.length - (-i).toNat]?
  else none

namespace Qt

/-- Qt.DisplayRole item data role (value 0 in Qt). -/
def DisplayRole : Int := 0

/-- Qt.Horizontal orientation (value 1 in Qt). -/
def Horizontal : Int := 1

/-- Qt.Vertical orientation (value 2 in Qt). -/
def Vertical : Int := 2

end Qt

/-- A value handed to the view: `QVariant()` (the empty variant) or a
string-carrying variant. -/
inductive QVariant where
  | empty : QVariant
  | str : String → QVariant
deriving DecidableEq

/-- A QModelIndex, reduced to the data the program reads from it: its row
and column (both Python ints; an invalid index carries row -1, column -1). -/
structure QModelIndex where
  row : Int
  column : Int
deriving DecidableEq

/-- QModelIndex.isValid(): a Qt model index is valid iff its row and column
are nonnegative (and it belongs to a model, which every index handed to
these handlers does). -/
def QModelIndex.isValid (i : QModelIndex) : Bool :=
  decide (0 ≤ i.row) && decide (0 ≤ i.column)

/-- The state of RssModel: `arraydata` is the backing 2D Python list;
`layoutChangedCount` counts the layoutChanged signals emitted so far, so
that "the view was notified" is observable in the embedding. -/
structure RssModel where
  arraydata : List (List String)
  layoutChangedCount : Nat
deriving DecidableEq

/-- RssModel.rowCount: the length of arraydata (the parent argument is
ignored by the source). -/
def RssModel.rowCount (m : RssModel) ( parent : Unit) : Nat :=
  m.arraydata.length

/-- RssModel.columnCount: `len(arraydata[0]) - 2` when arraydata is
non-empty, else 0 (Python `-` on ints, hence the Int result type). -/
def RssModel.columnCount (m : RssModel) ( parent : Unit) : Int :=
  match m.arraydata with
  | [] => 0
  | r :: _ => (r.length : Int) - 2

/-- RssModel.data: empty variant for an invalid index, for a column ≥ 2 and
for a role other than DisplayRole; otherwise the cell string
`arraydata[row][column]`.  `none` models a raised IndexError; `some v` the
returned variant. -/
def RssModel.data (m : RssModel) (index : QModelIndex) (role : Int) :
    Option QVariant :=
  if !index.isValid then some QVariant.empty
  else if index.column < 2 then
    if role = Qt.DisplayRole then
      ((pyGet m.arraydata index.row).bind (fun r => pyGet r index.column)).map
        QVariant.str
    else some QVariant.empty
  else some QVariant.empty

/-- RssModel.update: replaces arraydata with the list passed in and emits
layoutChanged. -/
def RssModel.update (m : RssModel) (datain : List (List String)) : RssModel :=
  { arraydata := datain, layoutChangedCount := m.layoutChangedCount + 1 }

/-- RssModel.summary: `arraydata[index.row()][2]`; `none` models a raised
IndexError. -/
def RssModel.summary (m : RssModel) (index : QModelIndex) : Option String :=
  (pyGet m.arraydata index.row).bind (fun r => pyGet r 2)

/-- RssModel.url: `arraydata[index.row()][3]`; `none` models a raised
IndexError. -/
def RssModel.url (m : RssModel) (index : QModelIndex) : Option String :=
  (pyGet m.arraydata index.row).bind (fun r => pyGet r 3)

/-- RssModel.headerData: for the display role, horizontal sections read
`["Title", "Website"][section]` (IndexError, i.e. outer `none`, when the
section is out of that list's range) and everything else returns Python
None (modelled by `some none`). -/
def RssModel.headerData (m : RssModel) (sec : Int) (orientation : Int)
    (role : Int) : Option (Option String) :=
  if role = Qt.DisplayRole then
    if orientation = Qt.Horizontal then
      (pyGet ["Title", "Website"] sec).map some
    else
      some none
  else some none

/-- One entry of the parsed feed, as the fetch loop reads it: each of the
three keys the loop looks up is present (`some s`) or absent (`none`,
making the lookup raise KeyError). -/
structure Entry where
  title : Option String
  link : Option String
  summary : Option String
deriving DecidableEq

/-- The result of feedparser.parse as the program consumes it:
`feed["feed"]["title"]` (absent key modelled by `none`) and
`feed["entries"]`. -/
structure Feed where
  feedTitle : Option String
  entries : List Entry
deriving DecidableEq

/-- The 4-element row `[title, website, summary, link]` appended for a
fully populated entry (the `getD ""` defaults are never reached on the
entries this is applied to). -/
def mkRecord (website : String) (e : Entry) : List String :=
  [e.title.getD "", website, e.summary.getD "", e.link.getD ""]

/-- The fetch loop of on_button_click: walks the entries in order, looking
up title, link and summary of each and appending
`[title, website, summary, link]` to the data list; the first entry missing
one of the three keys raises KeyError, aborting the loop.  Returns the data
list as mutated so far, paired with the escaped exception if any. -/
def fetchLoop (website : String) (ds : List (List String)) :
    List Entry → List (List String) × Option String
  | [] => (ds, none)
  | e :: es =>
    match e.title with
    | none => (ds, some "KeyError")
    | some t =>
      match e.link with
      | none => (ds, some "KeyError")
      | some l =>
        match e.summary with
        | none => (ds, some "KeyError")
        | some s => fetchLoop website (ds ++ [[t, website, s, l]]) es

/-- The state of RssFrame that the handlers touch: the 2D data list, the
table model, the URL line edit's text, the HTML last set on the description
pane, and the URL last loaded into the QWebEngineView. -/
structure RssFrame where
  data : List (List String)
  rssModel : RssModel
  feedURLEdit : String
  description : String
  browserUrl : Option String
deriving DecidableEq

/-- RssFrame.on_button_click, applied to the Feed that feedparser.parse
returned for the entered URL.  Reads the feed title (KeyError if absent,
before any row is appended), runs the fetch loop, and on success calls
rssModel.update(self.data).  The returned pair is the frame state after
the handler together with the escaped exception if any; on a mid-loop
KeyError the rows already appended stay in `data`, and since the model's
arraydata is the same Python list object it sees them too, but no
layoutChanged is emitted. -/
def RssFrame.on_button_click (f : RssFrame) (feed : Feed) :
    RssFrame × Option String :=
  match feed.feedTitle with
  | none => (f, some "KeyError")
  | some website =>
    match fetchLoop website f.data feed.entries with
    | (newData, some e) =>
      ({ f with data := newData,
                rssModel := { f.rssModel with arraydata := newData } }, some e)
    | (newData, none) =>
      ({ f with data := newData,
                rssModel := f.rssModel.update newData }, none)

/-- RssFrame.on_click, applied to the current selectedIndexes() list:
takes its first element (IndexError on an empty selection), reads that
row's summary and sets the description pane to the summary wrapped by the
`"<html><body>%s</body></html>"` format string. -/
def RssFrame.on_click (f : RssFrame) (selected : List QModelIndex) :
    Except String RssFrame :=
  match pyGet selected 0 with
  | none => Except.error "IndexError"
  | some index =>
    match f.rssModel.summary index with
    | none => Except.error "IndexError"
    | some s =>
      Except.ok { f with description := "<html><body>" ++ s ++ "</body></html>" }

/-- RssFrame.on_double_click, applied to the current selectedIndexes()
list: takes its first element (IndexError on an empty selection), reads
that row's url, wraps it in a QUrl and loads it in the browser.  The QUrl
is modelled as carrying the string verbatim; no validation is performed. -/
def RssFrame.on_double_click (f : RssFrame) (selected : List QModelIndex) :
    Except String RssFrame :=
  match pyGet selected 0 with
  | none => Except.error "IndexError"
  | some index =>
    match f.rssModel.url index with
    | none => Except.error "IndexError"
    | some u => Except.ok { f with browserUrl := some u }

/-- A fully populated feed entry, from the worked example in the spec. -/
def entryA : Entry := ⟨some "A", some "http://x/a", some "sa"⟩

/-- A second fully populated feed entry from the same example. -/
def entryB : Entry := ⟨some "B", some "http://x/b", some "sb"⟩

/-- The example feed "Site" with the two entries above. -/
def feedAB : Feed := ⟨some "Site", [entryA, entryB]⟩

/-- An entry whose summary key is absent, so the fetch loop raises on it. -/
def badEntry : Entry := ⟨some "C", some "http://x/c", none⟩

/-- A feed whose second entry is the first one missing a field. -/
def feedBad : Feed := ⟨some "Site", [entryA, badEntry]⟩

/-- A feed whose feed-level title key is absent. -/
def feedNoTitle : Feed := ⟨none, [entryA]⟩

/-- The frame right after construction: empty data list, model over the
same (empty) list, no signals emitted yet. -/
def frame0 : RssFrame := ⟨[], ⟨[], 0⟩, "", "", none⟩

/-- The two rows the example feed produces. -/
def rowsAB : List (List String) :=
  [["A", "Site", "sa", "http://x/a"], ["B", "Site", "sb", "http://x/b"]]

/-- A frame whose table already holds the two example rows. -/
def frameAB : RssFrame := ⟨rowsAB, ⟨rowsAB, 1⟩, "", "", none⟩

/-- Indexing a list by the cast of a natural number is plain list lookup:
the negative-index branch of pyGet is never taken. -/
theorem pyGet_natCast {α : Type} (xs : List α) (n : Nat) :
    pyGet xs (n : Int) = xs[n]? := by
  simp [pyGet]

/-- A Python index outside [-len, len) raises IndexError. -/
theorem pyGet_none_of_out_of_range {α : Type} (xs : List α) (i : Int)
    (h : (xs.length : Int) ≤ i ∨ i < -(xs.length : Int)) : pyGet xs i = none := by
  rcases h with h | h
  · have h0 : 0 ≤ i := by omega
    have hlen : xs.length ≤ i.toNat := by omega
    rw [pyGet, if_pos h0]
    exact List.getElem?_eq_none hlen
  · have h0 : ¬ 0 ≤ i := by omega
    have hlen : ¬ (-i).toNat ≤ xs.length := by omega
    simp [pyGet, h0, hlen]

/-- On a run of fully populated entries the fetch loop appends one
4-field record per entry, in order, and raises nothing. -/
theorem fetchLoop_all_valid (website : String) (es : List Entry)
    (h : ∀ e ∈ es, e.title.isSome ∧ e.link.isSome ∧ e.summary.isSome) :
    ∀ ds, fetchLoop website ds es = (ds ++ es.map (mkRecord website), none) := by
  induction es with
  | nil => intro ds; simp [fetchLoop]
  | cons e es ih =>
    intro ds
    obtain ⟨ht, hl, hs⟩ := h e (List.mem_cons_self e es)
    obtain ⟨t, ht⟩ := Option.isSome_iff_exists.mp ht
    obtain ⟨l, hl⟩ := Option.isSome_iff_exists.mp hl
    obtain ⟨s, hs⟩ := Option.isSome_iff_exists.mp hs
    have ihd := ih (fun e he => h e (List.mem_cons_of_mem _ he))
    simp [fetchLoop, ht, hl, hs, ihd, mkRecord]

/-- When the entries are a run of fully populated ones followed by a first
entry missing a field, the loop appends exactly the records of the good
run, then raises KeyError. -/
theorem fetchLoop_stops_at_bad (website : String) (good : List Entry)
    (bad : Entry) (rest : List Entry)
    (hgood : ∀ e ∈ good, e.title.isSome ∧ e.link.isSome ∧ e.summary.isSome)
    (hbad : bad.title = none ∨ bad.link = none ∨ bad.summary = none) :
    ∀ ds, fetchLoop website ds (good ++ bad :: rest) =
      (ds ++ good.map (mkRecord website), some "KeyError") := by
  induction good with
  | nil =>
    intro ds
    cases ht : bad.title with
    | none => simp [fetchLoop, ht]
    | some t =>
      cases hl : bad.link with
      | none => simp [fetchLoop, ht, hl]
      | some l =>
        cases hs : bad.summary with
        | none => simp [fetchLoop, ht, hl, hs]
        | some s => simp_all
  | cons e es ih =>
    intro ds
    obtain ⟨ht, hl, hs⟩ := hgood e (List.mem_cons_self e es)
    obtain ⟨t, ht⟩ := Option.isSome_iff_exists.mp ht
    obtain ⟨l, hl⟩ := Option.isSome_iff_exists.mp hl
    obtain ⟨s, hs⟩ := Option.isSome_iff_exists.mp hs
    have ihd := ih (fun e he => hgood e (List.mem_cons_of_mem _ he))
    simp [fetchLoop, ht, hl, hs, ihd, mkRecord]

/-- Unfolding of RssModel.data at a valid index whose column is 0 or 1:
the cell is the stored string at that row and column. -/
theorem data_display_cell (m : RssModel) (r : Nat) (c : Int)
    (hc0 : 0 ≤ c) (hc : c < 2) :
    m.data ⟨(r : Int), c⟩ Qt.DisplayRole =
      (m.arraydata[r]?.bind fun row => pyGet row c).map QVariant.str := by
  have hval : (QModelIndex.mk (r : Int) c).isValid = true := by
    simp [QModelIndex.isValid, hc0]
  simp [RssModel.data, hval, hc, pyGet_natCast]

/-- C1: fetching a valid feed (feed-level title present, every entry with
title, link and summary) raises no exception and leaves the table model
with previous-row-count plus N rows; in particular a valid feed with zero
entries leaves the row count unchanged and raises nothing. -/
theorem fetch_valid_feed_rowCount (f : RssFrame) (feed : Feed) (w : String)
    (halias : f.rssModel.arraydata = f.data)
    (hw : feed.feedTitle = some w)
    (hv : ∀ e ∈ feed.entries, e.title.isSome ∧ e.link.isSome ∧ e.summary.isSome) :
    (f.on_button_click feed).2 = none ∧
    (f.on_button_click feed).1.rssModel.rowCount () =
      f.rssModel.rowCount () + feed.entries.length := by
  simp [RssFrame.on_button_click, hw, fetchLoop_all_valid w feed.entries hv,
        RssModel.update, RssModel.rowCount, halias]

/-- C1 witness: the two-entry example feed fetched into the fresh frame. -/
theorem fetch_valid_feed_rowCount_witness :
    (frame0.on_button_click feedAB).2 = none ∧
    (frame0.on_button_click feedAB).1.rssModel.rowCount () =
      frame0.rssModel.rowCount () + feedAB.entries.length :=
  fetch_valid_feed_rowCount frame0 feedAB "Site" (by decide) (by decide)
    (by decide)

/-- C2: the record a fetch appends for entry i is
[entry title, feed title, entry summary, entry link], and on the row that
holds it the model accessors summary and url return exactly the stored
summary and link strings, unmodified. -/
theorem fetch_records_and_accessors (f : RssFrame) (feed : Feed) (w : String)
    (i : Nat) (t l s : String)
    (halias : f.rssModel.arraydata = f.data)
    (hw : feed.feedTitle = some w)
    (hv : ∀ e ∈ feed.entries, e.title.isSome ∧ e.link.isSome ∧ e.summary.isSome)
    (hi : feed.entries[i]? = some ⟨some t, some l, some s⟩) :
    (f.on_button_click feed).1.data[f.data.length + i]? =
      some [t, w, s, l] ∧
    (f.on_button_click feed).1.rssModel.summary
      ⟨((f.data.length + i : Nat) : Int), 0⟩ = some s ∧
    (f.on_button_click feed).1.rssModel.url
      ⟨((f.data.length + i : Nat) : Int), 0⟩ = some l := by
  have hrow : (f.data ++ feed.entries.map (mkRecord w))[f.data.length + i]? =
      some [t, w, s, l] := by
    rw [List.getElem?_append_right (by omega), List.getElem?_map]
    simp [hi, mkRecord]
  have hres : f.on_button_click feed =
      ({ f with data := f.data ++ feed.entries.map (mkRecord w),
                rssModel :=
                  f.rssModel.update (f.data ++ feed.entries.map (mkRecord w)) },
       none) := by
    simp [RssFrame.on_button_click, hw, fetchLoop_all_valid w feed.entries hv]
  rw [hres]
  refine ⟨hrow, ?_, ?_⟩ <;>
  · simp only [RssModel.summary, RssModel.url, RssModel.update, pyGet_natCast]
    rw [hrow]
    rfl

/-- C2 witness: row 1 after fetching the example feed holds entry B's
record, and summary and url return its stored fields. -/
theorem fetch_records_and_accessors_witness :
    (frame0.on_button_click feedAB).1.data[frame0.data.length + 1]? =
      some ["B", "Site", "sb", "http://x/b"] ∧
    (frame0.on_button_click feedAB).1.rssModel.summary
      ⟨((frame0.data.length + 1 : Nat) : Int), 0⟩ = some "sb" ∧
    (frame0.on_button_click feedAB).1.rssModel.url
      ⟨((frame0.data.length + 1 : Nat) : Int), 0⟩ = some "http://x/b" :=
  fetch_records_and_accessors frame0 feedAB "Site" 1 "B" "http://x/b" "sb"
    (by decide) (by decide) (by decide) (by decide)

/-- C3: after a fetch the displayed cell of new row (old length + i) is the
title of entry i in column 0 and the feed-level title in column 1, so the
rows appear in the order the entries were appended. -/
theorem fetch_display_cells (f : RssFrame) (feed : Feed) (w : String)
    (i : Nat) (t l s : String)
    (halias : f.rssModel.arraydata = f.data)
    (hw : feed.feedTitle = some w)
    (hv : ∀ e ∈ feed.entries, e.title.isSome ∧ e.link.isSome ∧ e.summary.isSome)
    (hi : feed.entries[i]? = some ⟨some t, some l, some s⟩) :
    (f.on_button_click feed).1.rssModel.data
      ⟨((f.data.length + i : Nat) : Int), 0⟩ Qt.DisplayRole =
        some (QVariant.str t) ∧
    (f.on_button_click feed).1.rssModel.data
      ⟨((f.data.length + i : Nat) : Int), 1⟩ Qt.DisplayRole =
        some (QVariant.str w) := by
  have hrow : (f.data ++ feed.entries.map (mkRecord w))[f.data.length + i]? =
      some [t, w, s, l] := by
    rw [List.getElem?_append_right (by omega), List.getElem?_map]
    simp [hi, mkRecord]
  have hres : f.on_button_click feed =
      ({ f with data := f.data ++ feed.entries.map (mkRecord w),
                rssModel :=
                  f.rssModel.update (f.data ++ feed.entries.map (mkRecord w)) },
       none) := by
    simp [RssFrame.on_button_click, hw, fetchLoop_all_valid w feed.entries hv]
  rw [hres]
  constructor
  · rw [data_display_cell _ (f.data.length + i) 0 (by norm_num) (by norm_num)]
    simp only [RssModel.update]
    rw [hrow]
    rfl
  · rw [data_display_cell _ (f.data.length + i) 1 (by norm_num) (by norm_num)]
    simp only [RssModel.update]
    rw [hrow]
    rfl

/-- C3 witness: after fetching the example feed into the fresh frame, row 1
displays entry B's title in column 0 and the feed title in column 1. -/
theorem fetch_display_cells_witness :
    (frame0.on_button_click feedAB).1.rssModel.data
      ⟨((frame0.data.length + 1 : Nat) : Int), 0⟩ Qt.DisplayRole =
        some (QVariant.str "B") ∧
    (frame0.on_button_click feedAB).1.rssModel.data
      ⟨((frame0.data.length + 1 : Nat) : Int), 1⟩ Qt.DisplayRole =
        some (QVariant.str "Site") :=
  fetch_display_cells frame0 feedAB "Site" 1 "B" "http://x/b" "sb"
    (by decide) (by decide) (by decide) (by decide)

/-- C4: selecting a row whose stored record has summary s and invoking
on_click sets the description pane to exactly the string
"<html><body>" ++ s ++ "</body></html>", with s verbatim and unescaped. -/
theorem on_click_renders_summary (f : RssFrame) (selected : List QModelIndex)
    (idx : QModelIndex) (r : Nat) (rec : List String) (s : String)
    (hsel : pyGet selected 0 = some idx)
    (hrow : idx.row = (r : Int))
    (hrec : f.rssModel.arraydata[r]? = some rec)
    (hs : rec[2]? = some s) :
    f.on_click selected =
      Except.ok
        { f with description := "<html><body>" ++ s ++ "</body></html>" } := by
  have hsum : f.rssModel.summary idx = some s := by
    rw [RssModel.summary, hrow, pyGet_natCast, hrec]
    simp [pyGet, hs]
  simp [RssFrame.on_click, hsel, hsum]

/-- C4 witness: clicking row 1 of the example table renders its stored
summary wrapped in the HTML envelope, matching the spec's worked example. -/
theorem on_click_renders_summary_witness :
    frameAB.on_click [⟨1, 0⟩] =
      Except.ok
        { frameAB with
            description := "<html><body>" ++ "sb" ++ "</body></html>" } :=
  on_click_renders_summary frameAB [⟨1, 0⟩] ⟨1, 0⟩ 1
    ["B", "Site", "sb", "http://x/b"] "sb"
    (by decide) (by decide) (by decide) (by decide)

/-- C5: selecting a row whose stored record has link u and invoking
on_double_click makes the embedded web viewer load exactly the string u,
with no validation of its scheme or format. -/
theorem on_double_click_loads_link (f : RssFrame) (selected : List QModelIndex)
    (idx : QModelIndex) (r : Nat) (rec : List String) (u : String)
    (hsel : pyGet selected 0 = some idx)
    (hrow : idx.row = (r : Int))
    (hrec : f.rssModel.arraydata[r]? = some rec)
    (hu : rec[3]? = some u) :
    f.on_double_click selected = Except.ok { f with browserUrl := some u } := by
  have hurl : f.rssModel.url idx = some u := by
    rw [RssModel.url, hrow, pyGet_natCast, hrec]
    simp [pyGet, hu]
  simp [RssFrame.on_double_click, hsel, hurl]

/-- C5 witness: double-clicking row 0 of the example table navigates the
viewer to the stored link, an arbitrary unvalidated string. -/
theorem on_double_click_loads_link_witness :
    frameAB.on_double_click [⟨0, 0⟩] =
      Except.ok { frameAB with browserUrl := some "http://x/a" } :=
  on_double_click_loads_link frameAB [⟨0, 0⟩] ⟨0, 0⟩ 0
    ["A", "Site", "sa", "http://x/a"] "http://x/a"
    (by decide) (by decide) (by decide) (by decide)

/-- C6 counterexample: the claim fails on the state with an empty backing
list, where columnCount returns 0, not 2, and fails on section 1, whose
horizontal display header is "Website", not "Source". -/
theorem columnCount_headers_counterexample :
    ¬ (RssModel.columnCount ⟨[], 0⟩ () = 2 ∧
       RssModel.headerData ⟨[], 0⟩ 1 Qt.Horizontal Qt.DisplayRole =
         some (some "Source")) := by
  decide

/-- C6 amended: columnCount is the first record's length minus 2 — hence 2
exactly when the backing list is non-empty (its records all have the 4
fields this program stores) and 0 when it is empty — and the horizontal
display-role headers for sections 0 and 1 are "Title" and "Website". -/
theorem columnCount_and_headers (m : RssModel)
    (h4 : ∀ rec ∈ m.arraydata, rec.length = 4) :
    m.columnCount () = (if m.arraydata.isEmpty then 0 else 2) ∧
    m.headerData 0 Qt.Horizontal Qt.DisplayRole = some (some "Title") ∧
    m.headerData 1 Qt.Horizontal Qt.DisplayRole = some (some "Website") := by
  refine ⟨?_, rfl, rfl⟩
  cases h : m.arraydata with
  | nil => simp [RssModel.columnCount, h]
  | cons r rs =>
    have h4r : r.length = 4 := h4 r (by simp [h])
    simp [RssModel.columnCount, h, h4r]

/-- C6 amended witness: the one-row example model has two columns and the
fixed headers. -/
theorem columnCount_and_headers_witness :
    RssModel.columnCount ⟨rowsAB, 1⟩ () =
      (if ((⟨rowsAB, 1⟩ : RssModel).arraydata).isEmpty then 0 else 2) ∧
    RssModel.headerData ⟨rowsAB, 1⟩ 0 Qt.Horizontal Qt.DisplayRole =
      some (some "Title") ∧
    RssModel.headerData ⟨rowsAB, 1⟩ 1 Qt.Horizontal Qt.DisplayRole =
      some (some "Website") :=
  columnCount_and_headers ⟨rowsAB, 1⟩ (by decide)

/-- C7: at a valid index the model yields the empty variant for every
column index 2 or greater and for every non-display role, so only columns
0 and 1 under the display role ever show text and the summary and link
columns are never displayed. -/
theorem data_empty_outside_display (m : RssModel) (idx : QModelIndex)
    (role : Int) (hvalid : idx.isValid = true) :
    (2 ≤ idx.column → m.data idx role = some QVariant.empty) ∧
    (role ≠ Qt.DisplayRole → m.data idx role = some QVariant.empty) := by
  constructor
  · intro h2
    have hnlt : ¬ idx.column < 2 := by omega
    simp [RssModel.data, hvalid, hnlt]
  · intro hrole
    by_cases h : idx.column < 2 <;> simp [RssModel.data, hvalid, h, hrole]

/-- C7 witness: on the example model, column 2 shows nothing under the
display role, and column 0 shows nothing under the edit role (value 2). -/
theorem data_empty_outside_display_witness :
    RssModel.data ⟨rowsAB, 1⟩ ⟨0, 2⟩ Qt.DisplayRole = some QVariant.empty ∧
    RssModel.data ⟨rowsAB, 1⟩ ⟨0, 0⟩ 2 = some QVariant.empty :=
  ⟨(data_empty_outside_display ⟨rowsAB, 1⟩ ⟨0, 2⟩ Qt.DisplayRole
      (by decide)).1 (by decide),
   (data_empty_outside_display ⟨rowsAB, 1⟩ ⟨0, 0⟩ 2 (by decide)).2 (by decide)⟩

/-- C8 counterexample: the claim fails at the out-of-range row index -1 (the
row carried by an invalid QModelIndex) on a one-row list: Python negative
indexing makes summary and url silently return the last row's fields, and
no IndexError is raised. -/
theorem summary_url_negative_row_counterexample :
    RssModel.summary ⟨rowsAB, 1⟩ ⟨-1, 0⟩ = some "sb" ∧
    RssModel.url ⟨rowsAB, 1⟩ ⟨-1, 0⟩ = some "http://x/b" := by
  decide

/-- C8 amended: the accessors raise IndexError exactly for a row index at
least the list length or below minus the list length; a negative row index
within Python range resolves to a row counted from the back instead of
raising.  Being pure reads, they leave the article list untouched. -/
theorem summary_url_out_of_range (m : RssModel) (idx : QModelIndex)
    (h : (m.arraydata.length : Int) ≤ idx.row ∨
      idx.row < -(m.arraydata.length : Int)) :
    m.summary idx = none ∧ m.url idx = none := by
  have hp : pyGet m.arraydata idx.row = none :=
    pyGet_none_of_out_of_range m.arraydata idx.row h
  simp [RssModel.summary, RssModel.url, hp]

/-- C8 amended witness: row 5 of the two-row example model raises on both
accessors. -/
theorem summary_url_out_of_range_witness :
    RssModel.summary ⟨rowsAB, 1⟩ ⟨5, 0⟩ = none ∧
    RssModel.url ⟨rowsAB, 1⟩ ⟨5, 0⟩ = none :=
  summary_url_out_of_range ⟨rowsAB, 1⟩ ⟨5, 0⟩ (Or.inl (by decide))

/-- C9: with an empty selection, selectedIndexes()[0] raises IndexError in
both the single-click and the double-click handler; neither is a no-op. -/
theorem empty_selection_raises (f : RssFrame) :
    f.on_click [] = Except.error "IndexError" ∧
    f.on_double_click [] = Except.error "IndexError" := by
  exact ⟨rfl, rfl⟩

/-- C9 witness: both handlers raise on the example frame with nothing
selected. -/
theorem empty_selection_raises_witness :
    frameAB.on_click [] = Except.error "IndexError" ∧
    frameAB.on_double_click [] = Except.error "IndexError" :=
  empty_selection_raises frameAB

/-- C10: the fetch is not atomic: with the feed title present and entry k
the first to lack a field, exactly the records of entries 0 through k-1
remain appended to the data list while no layoutChanged notification is
emitted; with the feed-level title itself absent, the fetch raises before
appending anything and the frame is unchanged. -/
theorem fetch_not_atomic (f : RssFrame) (feed badFeed : Feed) (w : String)
    (good : List Entry) (bad : Entry) (rest : List Entry)
    (hw : feed.feedTitle = some w)
    (hsplit : feed.entries = good ++ bad :: rest)
    (hgood : ∀ e ∈ good, e.title.isSome ∧ e.link.isSome ∧ e.summary.isSome)
    (hbad : bad.title = none ∨ bad.link = none ∨ bad.summary = none)
    (hnotitle : badFeed.feedTitle = none) :
    ((f.on_button_click feed).2 = some "KeyError" ∧
     (f.on_button_click feed).1.data = f.data ++ good.map (mkRecord w) ∧
     (f.on_button_click feed).1.rssModel.layoutChangedCount =
       f.rssModel.layoutChangedCount) ∧
    f.on_button_click badFeed = (f, some "KeyError") := by
  refine ⟨?_, by simp [RssFrame.on_button_click, hnotitle]⟩
  have hloop := fetchLoop_stops_at_bad w good bad rest hgood hbad f.data
  simp [RssFrame.on_button_click, hw, hsplit, hloop]

/-- C10 witness: fetching the feed whose second entry lacks a summary
appends only the first entry's record with no notification, and fetching
the title-less feed changes nothing. -/
theorem fetch_not_atomic_witness :
    ((frame0.on_button_click feedBad).2 = some "KeyError" ∧
     (frame0.on_button_click feedBad).1.data =
       frame0.data ++ [entryA].map (mkRecord "Site") ∧
     (frame0.on_button_click feedBad).1.rssModel.layoutChangedCount =
       frame0.rssModel.layoutChangedCount) ∧
    frame0.on_button_click feedNoTitle = (frame0, some "KeyError") :=
  fetch_not_atomic frame0 feedBad feedNoTitle "Site" [entryA] badEntry []
    (by decide) (by decide) (by decide) (by decide) (by decide)

end RSSReader
